import Mathlib

/-!
Shallow embedding of the offline submission queue and reconciliation core of
the Purple Detailing field-capture app, translated from
`src/frontend/field-ui-next/src/app/new-job/NewJobClient.tsx`.

Pure normalizers become Lean functions on `String` / `List Char`; the
localStorage queue becomes a `List PendingJob` threaded explicitly; the
Supabase tables become lists inside a `Store` record; fallible remote calls
are driven by an `Env` of failure flags and return the store as written so far
with an `Except` outcome.  JS real-number arithmetic is modelled over `ℚ`.
-/

namespace PurpleField

/-! ## Normalizer (source lines 50-77) -/

/-- Whitespace characters removed by JS `String.prototype.trim` (ASCII range). -/
def isWs (c : Char) : Bool :=
  c == ' ' || c == '\t' || c == '\n' || c == '\r' || c == '\x0b' || c == '\x0c'

/-- Drop leading and trailing whitespace from a character list. -/
def trimChars (l : List Char) : List Char :=
  ((l.dropWhile isWs).reverse.dropWhile isWs).reverse

/-- JS `.trim()`. -/
def jsTrim (s : String) : String := String.mk (trimChars s.data)

/-- JS `toUpperCase`, ASCII fragment (the subsequent filters keep only
ASCII characters, so this is the relevant fragment). -/
def jsToUpper (c : Char) : Char :=
  if 'a' ≤ c ∧ c ≤ 'z' then Char.ofNat (c.toNat - 32) else c

/-- Membership in the character class `[A-Z0-9]`. -/
def isUpperAlnum (c : Char) : Bool :=
  (decide ('A' ≤ c) && decide (c ≤ 'Z')) || (decide ('0' ≤ c) && decide (c ≤ '9'))

/-- `normalizeVin` (source lines 59-61): `(raw || "").trim().toUpperCase()
.replace(/[^A-Z0-9]/g, "")`. -/
def normalizeVin (raw : String) : String :=
  String.mk (((trimChars raw.data).map jsToUpper).filter isUpperAlnum)

/-- One character of the VIN class `[A-HJ-NPR-Z0-9]`. -/
def isVinChar (c : Char) : Bool :=
  (decide ('A' ≤ c) && decide (c ≤ 'H')) || (decide ('J' ≤ c) && decide (c ≤ 'N')) ||
  c == 'P' || (decide ('R' ≤ c) && decide (c ≤ 'Z')) ||
  (decide ('0' ≤ c) && decide (c ≤ '9'))

/-- `isValidVin` (source lines 62-65): `/^[A-HJ-NPR-Z0-9]{17}$/.test(vin)`. -/
def isValidVin (v : String) : Bool :=
  v.data.length == 17 && v.data.all isVinChar

/-- `normalizePhone` (source lines 67-71): keep digits; drop a leading `"1"`
from an 11-digit number. -/
def normalizePhone (raw : String) : String :=
  let digits := raw.data.filter Char.isDigit
  if digits.length == 11 && digits.head? == some '1' then String.mk digits.tail
  else String.mk digits

/-- The character class `[0-9.]` kept by `dollarsToCents`. -/
def isDigitOrDot (c : Char) : Bool := c.isDigit || c == '.'

/-- Decimal value of a digit string (most significant first). -/
def digitsVal (l : List Char) : ℕ := l.foldl (fun n c => n * 10 + (c.toNat - 48)) 0

/-- JS `Number(...)` applied to a non-empty string of digits and dots:
`none` (`NaN`) when there are two dots or only a dot, otherwise the decimal
value, modelled over `ℚ`. -/
def jsDecimalValue (l : List Char) : Option ℚ :=
  let intPart := l.takeWhile (fun c => c != '.')
  let rest := l.dropWhile (fun c => c != '.')
  match rest with
  | [] => some (digitsVal intPart : ℚ)
  | _ :: frac =>
    if frac.any (fun c => c == '.') then none
    else if intPart.isEmpty && frac.isEmpty then none
    else some ((digitsVal intPart : ℚ) + (digitsVal frac : ℚ) / (10 : ℚ) ^ frac.length)

/-- JS `Math.round` on the non-negative values produced here. -/
def jsRound (q : ℚ) : ℤ := ⌊q + 1/2⌋

/-- `dollarsToCents` (source lines 50-56): strip everything but digits and
`"."`, parse as a decimal number, round dollars to integer cents; empty or
unparsable input yields 0. -/
def dollarsToCents (input : String) : ℤ :=
  let cleaned := input.data.filter isDigitOrDot
  if cleaned.isEmpty then 0
  else
    match jsDecimalValue cleaned with
    | none => 0
    | some q => jsRound (q * 100)

/-- `normalizeDriveFolderLink` (source lines 275-280): trim; both regex
branches of the source return the trimmed string unchanged. -/
def normalizeDriveFolderLink (raw : String) : String :=
  let s := jsTrim raw
  if s = "" then "" else s

/-- `phoneToLegacyCustomerId` (source lines 268-273): digits of the phone as
a number, `null` when there are none (`Number` of a digit string is finite). -/
def phoneToLegacyCustomerId (rawPhone : String) : Option ℕ :=
  let d := normalizePhone rawPhone
  if d = "" then none else some (digitsVal d.data)

/-! ## Helper lemmas about the normalizers -/

theorem char_le_iff_toNat {a b : Char} : a ≤ b ↔ a.toNat ≤ b.toNat := Iff.rfl

theorem char_eq_iff_toNat {a b : Char} : a = b ↔ a.toNat = b.toNat :=
  ⟨fun h => by rw [h], fun h =>
    Char.eq_of_val_eq (UInt32.eq_of_toBitVec_eq (BitVec.eq_of_toNat_eq h))⟩

theorem dropWhile_eq_self_of {l : List Char} {p : Char → Bool}
    (h : ∀ c ∈ l, p c = false) : l.dropWhile p = l := by
  cases l with
  | nil => rfl
  | cons a t => simp [List.dropWhile_cons, h a (by simp)]

theorem trimChars_eq_self {l : List Char} (h : ∀ c ∈ l, isWs c = false) :
    trimChars l = l := by
  unfold trimChars
  rw [dropWhile_eq_self_of h,
    dropWhile_eq_self_of (fun c hc => h c (List.mem_reverse.mp hc)),
    List.reverse_reverse]

theorem map_eq_self_of {α : Type} {l : List α} {f : α → α}
    (h : ∀ a ∈ l, f a = a) : l.map f = l := by
  induction l with
  | nil => rfl
  | cons a t ih => simp only [List.map_cons, h a (by simp),
      ih fun x hx => h x (by simp [hx]), List.cons.injEq, and_self]

theorem notWs_of_isUpperAlnum {c : Char} (h : isUpperAlnum c = true) :
    isWs c = false := by
  rcases Bool.or_eq_true _ _ |>.mp h with h' | h' <;>
  · rw [Bool.and_eq_true, decide_eq_true_eq, decide_eq_true_eq] at h'
    simp only [isWs, Bool.or_eq_false_iff, beq_eq_false_iff_ne]
    refine ⟨⟨⟨⟨⟨?_, ?_⟩, ?_⟩, ?_⟩, ?_⟩, ?_⟩ <;>
    · intro he
      subst he
      exact absurd h'.1 (by decide)

theorem jsToUpper_eq_self_of {c : Char} (h : isUpperAlnum c = true) :
    jsToUpper c = c := by
  unfold jsToUpper
  rw [if_neg]
  intro ⟨h1, h2⟩
  rcases Bool.or_eq_true _ _ |>.mp h with h' | h' <;>
  · rw [Bool.and_eq_true, decide_eq_true_eq, decide_eq_true_eq] at h'
    exact absurd (le_trans h1 h'.2) (by decide)

theorem mem_normalizeVin {s : String} {c : Char} (h : c ∈ (normalizeVin s).data) :
    isUpperAlnum c = true :=
  (List.mem_filter.mp h).2

theorem normalizeVin_idem (s : String) :
    normalizeVin (normalizeVin s) = normalizeVin s := by
  have hmem : ∀ c ∈ (normalizeVin s).data, isUpperAlnum c = true :=
    fun c hc => mem_normalizeVin hc
  show String.mk ((((trimChars (normalizeVin s).data).map jsToUpper).filter isUpperAlnum)) = _
  rw [trimChars_eq_self (fun c hc => notWs_of_isUpperAlnum (hmem c hc)),
    map_eq_self_of (fun c hc => jsToUpper_eq_self_of (hmem c hc)),
    List.filter_eq_self.mpr hmem]

theorem normalizePhone_idem (s : String) :
    normalizePhone (normalizePhone s) = normalizePhone s := by
  unfold normalizePhone
  have hdig : ∀ c ∈ s.data.filter Char.isDigit, Char.isDigit c = true :=
    fun c hc => (List.mem_filter.mp hc).2
  by_cases hc :
      ((s.data.filter Char.isDigit).length == 11 &&
        (s.data.filter Char.isDigit).head? == some '1') = true
  · rw [if_pos hc]
    have hlen : (s.data.filter Char.isDigit).length = 11 := by
      simpa using (Bool.and_eq_true _ _ |>.mp hc).1
    have htail : (String.mk (s.data.filter Char.isDigit).tail).data.filter Char.isDigit
        = (s.data.filter Char.isDigit).tail :=
      List.filter_eq_self.mpr fun c hc' => hdig c (List.mem_of_mem_tail hc')
    rw [show (String.mk (s.data.filter Char.isDigit).tail).data
        = (s.data.filter Char.isDigit).tail from rfl] at htail ⊢
    rw [htail, if_neg]
    rw [Bool.and_eq_true, not_and]
    intro hll
    exfalso
    have : (s.data.filter Char.isDigit).tail.length = 10 := by
      rw [List.length_tail, hlen]
    rw [this] at hll
    exact absurd hll (by decide)
  · rw [if_neg hc]
    have hfix : (String.mk (s.data.filter Char.isDigit)).data.filter Char.isDigit
        = s.data.filter Char.isDigit :=
      List.filter_eq_self.mpr hdig
    rw [show (String.mk (s.data.filter Char.isDigit)).data
        = s.data.filter Char.isDigit from rfl] at hfix ⊢
    rw [hfix, if_neg hc]

/-! ## Claim theorems for the pure normalizers -/

/-- Claim C9: `normalizeVin` is idempotent and its result contains only
characters in `[A-Z0-9]`; `normalizePhone` is idempotent. -/
theorem normalizers_idempotent :
    (∀ s : String, normalizeVin (normalizeVin s) = normalizeVin s) ∧
    (∀ (s : String), ∀ c ∈ (normalizeVin s).data,
      ('A' ≤ c ∧ c ≤ 'Z') ∨ ('0' ≤ c ∧ c ≤ '9')) ∧
    (∀ s : String, normalizePhone (normalizePhone s) = normalizePhone s) := by
  refine ⟨normalizeVin_idem, fun s c hc => ?_, normalizePhone_idem⟩
  have h := mem_normalizeVin hc
  rcases Bool.or_eq_true _ _ |>.mp h with h' | h' <;>
    rw [Bool.and_eq_true, decide_eq_true_eq, decide_eq_true_eq] at h'
  · exact Or.inl h'
  · exact Or.inr h'

/-- Witness for C9 at concrete inputs. -/
theorem normalizers_idempotent_instance :
    normalizeVin (normalizeVin " 1hg-cm8 ") = normalizeVin " 1hg-cm8 " ∧
    (('A' ≤ 'H' ∧ 'H' ≤ 'Z') ∨ ('0' ≤ 'H' ∧ 'H' ≤ '9')) ∧
    normalizePhone (normalizePhone "1-919-555-0100") = normalizePhone "1-919-555-0100" :=
  ⟨normalizers_idempotent.1 " 1hg-cm8 ",
   normalizers_idempotent.2.1 " 1hg-cm8 " 'H' (by decide),
   normalizers_idempotent.2.2 "1-919-555-0100"⟩

/-- Claim C8: `isValidVin` accepts exactly the strings of 17 characters drawn
from uppercase alphanumerics excluding I, O, Q; any string containing I, O or
Q, or not of length 17, is rejected; the two scenario-D examples behave as
specified. -/
theorem isValidVin_spec :
    isValidVin "1HGCM82633A004352" = true ∧
    isValidVin "1HGCM82633A00435I" = false ∧
    (∀ s : String, s.data.length ≠ 17 → isValidVin s = false) ∧
    (∀ s : String, ('I' ∈ s.data ∨ 'O' ∈ s.data ∨ 'Q' ∈ s.data) → isValidVin s = false) ∧
    (∀ s : String, isValidVin s = true ↔
      (s.data.length = 17 ∧ ∀ c ∈ s.data,
        (('A' ≤ c ∧ c ≤ 'Z') ∧ c ≠ 'I' ∧ c ≠ 'O' ∧ c ≠ 'Q') ∨ ('0' ≤ c ∧ c ≤ '9'))) := by
  have hclass : ∀ c : Char, isVinChar c = true ↔
      ((('A' ≤ c ∧ c ≤ 'Z') ∧ c ≠ 'I' ∧ c ≠ 'O' ∧ c ≠ 'Q') ∨ ('0' ≤ c ∧ c ≤ '9')) := by
    intro c
    simp only [isVinChar, Bool.or_eq_true, Bool.and_eq_true, decide_eq_true_eq, beq_iff_eq,
      char_le_iff_toNat, char_eq_iff_toNat, ne_eq]
    rw [show ('A').toNat = 65 from rfl, show ('H').toNat = 72 from rfl,
      show ('J').toNat = 74 from rfl, show ('N').toNat = 78 from rfl,
      show ('P').toNat = 80 from rfl, show ('R').toNat = 82 from rfl,
      show ('Z').toNat = 90 from rfl, show ('0').toNat = 48 from rfl,
      show ('9').toNat = 57 from rfl, show ('I').toNat = 73 from rfl,
      show ('O').toNat = 79 from rfl, show ('Q').toNat = 81 from rfl]
    omega
  refine ⟨by decide, by decide, ?_, ?_, ?_⟩
  · intro s hs
    simp only [isValidVin, Bool.and_eq_false_iff]
    exact Or.inl (by simpa using hs)
  · intro s hs
    simp only [isValidVin, Bool.and_eq_false_iff]
    refine Or.inr ?_
    rw [Bool.eq_false_iff]
    intro hall
    rw [List.all_eq_true] at hall
    rcases hs with h | h | h <;>
      exact absurd ((hclass _).mp (hall _ h)) (by decide)
  · intro s
    simp only [isValidVin, Bool.and_eq_true, beq_iff_eq, List.all_eq_true]
    constructor
    · rintro ⟨h1, h2⟩
      exact ⟨h1, fun c hc => (hclass c).mp (h2 c hc)⟩
    · rintro ⟨h1, h2⟩
      exact ⟨h1, fun c hc => (hclass c).mpr (h2 c hc)⟩

/-- Witness for C8 at concrete inputs. -/
theorem isValidVin_spec_instance :
    isValidVin "SHORT" = false ∧ isValidVin "1HGCM82633A00435Q" = false :=
  ⟨isValidVin_spec.2.2.1 "SHORT" (by decide),
   isValidVin_spec.2.2.2.1 "1HGCM82633A00435Q" (Or.inr (Or.inr (by decide)))⟩

theorem jsRound_natCast_mul (n : ℕ) : jsRound ((n : ℚ) * 100) = 100 * n := by
  unfold jsRound
  rw [show ((n : ℚ) * 100 + 1/2) = ((100 * n : ℤ) : ℚ) + 1/2 by push_cast; ring,
    Int.floor_int_add]
  norm_num

theorem dollarsToCents_digitString (s : String) (hne : s.data ≠ [])
    (hdig : ∀ c ∈ s.data, Char.isDigit c = true) :
    dollarsToCents s = 100 * (digitsVal s.data : ℤ) := by
  unfold dollarsToCents
  have hfil : s.data.filter isDigitOrDot = s.data :=
    List.filter_eq_self.mpr fun a ha => by simp [isDigitOrDot, hdig a ha]
  rw [hfil, if_neg (by simpa [List.isEmpty_iff] using hne)]
  have hdrop : s.data.dropWhile (fun c => c != '.') = [] := by
    rw [List.dropWhile_eq_nil_iff]
    intro x hx
    have := hdig x hx
    simp only [bne_iff_ne, ne_eq]
    intro he
    rw [he] at this
    exact absurd this (by decide)
  have htake : s.data.takeWhile (fun c => c != '.') = s.data := by
    have := List.takeWhile_append_dropWhile (fun c => c != '.') s.data
    rwa [hdrop, List.append_nil] at this
  unfold jsDecimalValue
  rw [htake, hdrop]
  show jsRound ((digitsVal s.data : ℚ) * 100) = 100 * (digitsVal s.data : ℤ)
  rw [jsRound_natCast_mul]

/-- Claim C7: `dollarsToCents` strips every character outside `[0-9.]`
(pre-stripping the input does not change the result), returns 0 on input with
no digit-or-dot characters, parses a pure digit string as whole dollars, and
satisfies the three specified examples. -/
theorem dollarsToCents_spec :
    dollarsToCents "250" = 25000 ∧
    dollarsToCents "" = 0 ∧
    dollarsToCents "abc" = 0 ∧
    (∀ s : String, dollarsToCents (String.mk (s.data.filter isDigitOrDot)) = dollarsToCents s) ∧
    (∀ s : String, (∀ c ∈ s.data, isDigitOrDot c = false) → dollarsToCents s = 0) ∧
    (∀ s : String, s.data ≠ [] → (∀ c ∈ s.data, Char.isDigit c = true) →
      dollarsToCents s = 100 * (digitsVal s.data : ℤ)) := by
  refine ⟨?_, by decide, by decide, ?_, ?_, dollarsToCents_digitString⟩
  · rw [dollarsToCents_digitString "250" (by decide) (by decide),
      show digitsVal "250".data = 250 from by decide]
    norm_num
  · intro s
    unfold dollarsToCents
    rw [show (String.mk (s.data.filter isDigitOrDot)).data
        = s.data.filter isDigitOrDot from rfl,
      List.filter_eq_self.mpr fun a ha => (List.mem_filter.mp ha).2]
  · intro s h
    unfold dollarsToCents
    rw [List.filter_eq_nil_iff.mpr fun a ha => by simp [h a ha]]
    rfl

/-- Witness for C7 at concrete inputs. -/
theorem dollarsToCents_spec_instance :
    dollarsToCents "$ 7!" = dollarsToCents "7" ∧ dollarsToCents "x-y" = 0 ∧
    dollarsToCents "7" = 700 := by
  refine ⟨?_, dollarsToCents_spec.2.2.2.2.1 "x-y" (by decide), ?_⟩
  · have h := dollarsToCents_spec.2.2.2.1 "$ 7!"
    rw [show String.mk ("$ 7!".data.filter isDigitOrDot) = "7" by decide] at h
    exact h
  · rw [dollarsToCents_spec.2.2.2.2.2 "7" (by decide) (by decide),
      show digitsVal "7".data = 7 from by decide]
    norm_num

/-! ## Data model (source lines 9-36, 84-105) -/

/-- Row of the `vehicles` table. -/
structure Vehicle where
  id : ℕ
  vin : String
  year : Option ℤ
  make : Option String
  model : Option String
  trim : Option String
  service_history_link : Option String
deriving Repr, DecidableEq

/-- Row of the `customers` table. -/
structure Customer where
  id : ℕ
  full_name : String
  phone : Option String
  phone_norm : Option String
  address : Option String
  zip_code : Option String
deriving Repr, DecidableEq

/-- Row of the `jobs` table. -/
structure Job where
  id : ℕ
  customer_id : ℕ
  vehicle_id : ℕ
  status : String
  performed_at : String
  notes : Option String
  total_price_cents : ℤ
  currency : String
deriving Repr, DecidableEq

/-- Row of the `job_services` table. -/
structure JobService where
  job_id : ℕ
  service_id : String
  quantity : ℕ
  final_price_cents : Option ℤ
  price_note : Option String
deriving Repr, DecidableEq

/-- Row of the `customer_data_legacy` table, with the duplicated alternate
column names written by `upsertLegacyByVin`. -/
structure LegacyRecord where
  id : ℕ
  vin : String
  customer_id : Option ℕ
  status : String
  notes : Option String
  customer_name : Option String
  phone_number : Option String
  address : Option String
  zip_code : Option String
  customer_phone : Option String
  customer_address : Option String
  customer_zip : Option String
  zip : Option String
  postal_code : Option String
  make : Option String
  model : Option String
  year : Option ℤ
  service_history_link : Option String
deriving Repr, DecidableEq

/-- `PendingJob` (source lines 86-105): one queue entry. -/
structure PendingJob where
  id : String
  created_at : String
  attempt_count : ℕ
  vin : String
  customer_name : String
  customer_phone : String
  customer_address : String
  customer_zip : String
  service_history_link : String
  service_type : String
  selected_package_id : String
  addon_ids : List String
  total_charged : String
  notes : String
  performed_at : String
deriving Repr, DecidableEq

/-- `Omit<PendingJob, "id" | "created_at" | "attempt_count">`: the payload
handed to `enqueueJob`. -/
structure JobPayload where
  vin : String
  customer_name : String
  customer_phone : String
  customer_address : String
  customer_zip : String
  service_history_link : String
  service_type : String
  selected_package_id : String
  addon_ids : List String
  total_charged : String
  notes : String
  performed_at : String
deriving Repr, DecidableEq

/-- The new `PendingJob` built inside `enqueueJob` (source lines 141-146):
fresh id and timestamp (taken as arguments, standing for `makeId()` and
`new Date().toISOString()`), `attempt_count = 0`, payload snapshot. -/
def mkPendingJob (id created_at : String) (p : JobPayload) : PendingJob :=
  { id := id, created_at := created_at, attempt_count := 0,
    vin := p.vin, customer_name := p.customer_name, customer_phone := p.customer_phone,
    customer_address := p.customer_address, customer_zip := p.customer_zip,
    service_history_link := p.service_history_link, service_type := p.service_type,
    selected_package_id := p.selected_package_id, addon_ids := p.addon_ids,
    total_charged := p.total_charged, notes := p.notes, performed_at := p.performed_at }

/-! ## Local Queue Store (source lines 122-160).  The queue stored under
`OFFLINE_QUEUE_KEY` is threaded explicitly as a `List PendingJob`
(newest-first, as stored). -/

/-- `enqueueJob` (source lines 139-150): `q.unshift(newItem)` — front insertion. -/
def enqueueJob (q : List PendingJob) (id created_at : String) (p : JobPayload) :
    List PendingJob :=
  mkPendingJob id created_at p :: q

/-- `removeFromQueue` (source lines 152-155): `filter((x) => x.id !== id)`. -/
def removeFromQueue (q : List PendingJob) (id : String) : List PendingJob :=
  q.filter (fun x => x.id != id)

/-- `bumpAttempt` (source lines 157-160): `map((x) => (x.id === id ?
{ ...x, attempt_count: x.attempt_count + 1 } : x))`. -/
def bumpAttempt (q : List PendingJob) (id : String) : List PendingJob :=
  q.map (fun x => if x.id == id then { x with attempt_count := x.attempt_count + 1 } else x)

/-- A sequence of submissions (id, timestamp, payload) enqueued in
chronological order, starting from the empty queue. -/
def enqueueAll (subs : List (String × String × JobPayload)) : List PendingJob :=
  subs.foldl (fun q x => enqueueJob q x.1 x.2.1 x.2.2) []

theorem enqueueAll_foldl (subs : List (String × String × JobPayload)) :
    ∀ q0 : List PendingJob,
      subs.foldl (fun q x => enqueueJob q x.1 x.2.1 x.2.2) q0 =
        (subs.map fun x => mkPendingJob x.1 x.2.1 x.2.2).reverse ++ q0 := by
  induction subs with
  | nil => intro q0; rfl
  | cons a t ih =>
    intro q0
    simp only [List.foldl_cons, List.map_cons, List.reverse_cons, List.append_assoc,
      List.singleton_append, ih (enqueueJob q0 a.1 a.2.1 a.2.2)]
    rfl

/-- Claim C4: each enqueue inserts the new entry (with `attempt_count = 0`)
at the front of the stored list, so for every sequence of enqueues from the
empty queue, the stored list reversed is the chronological submission order,
oldest first. -/
theorem enqueue_front_and_reverse_chronological :
    (∀ (q : List PendingJob) (id created_at : String) (p : JobPayload),
      enqueueJob q id created_at p = mkPendingJob id created_at p :: q ∧
      (mkPendingJob id created_at p).attempt_count = 0) ∧
    (∀ subs : List (String × String × JobPayload),
      (enqueueAll subs).reverse = subs.map fun x => mkPendingJob x.1 x.2.1 x.2.2) := by
  refine ⟨fun q id created_at p => ⟨rfl, rfl⟩, fun subs => ?_⟩
  rw [enqueueAll, enqueueAll_foldl subs [], List.append_nil, List.reverse_reverse]

/-- Claim C10: `bumpAttempt id` preserves the length and order of the queue,
rewrites exactly the entries whose id matches (incrementing `attempt_count`
by 1 and touching no other field) and leaves every other entry untouched; if
no entry carries the id, the queue is unchanged. -/
theorem bumpAttempt_frame :
    (∀ (q : List PendingJob) (id : String), (bumpAttempt q id).length = q.length) ∧
    (∀ (q : List PendingJob) (id : String) (i : ℕ),
      (bumpAttempt q id)[i]? = (q[i]?).map fun e =>
        if e.id == id then { e with attempt_count := e.attempt_count + 1 } else e) ∧
    (∀ (q : List PendingJob) (id : String),
      (∀ e ∈ q, e.id ≠ id) → bumpAttempt q id = q) := by
  refine ⟨fun q id => by simp [bumpAttempt], fun q id i => ?_, fun q id h => ?_⟩
  · exact List.getElem?_map _ q i
  · exact map_eq_self_of fun e he => by simp [h e he]

/-! ## Remote store and environment

The Supabase tables are lists; `nextId` supplies the fresh row ids the
database would generate.  `Env` fixes the outcome of each fallible remote
call (a `true` flag means that call returns an error object / rejects) plus
the connectivity flag and the VIN-decode collaborator's response, so one
reconciliation run is a pure function of `(Env, Store, PendingJob)`. -/

/-- Decoded identity fields returned by `GET /api/vin-decode` (source
lines 412-417, each field `?? null`). -/
structure DecodeResult where
  year : Option ℤ
  make : Option String
  model : Option String
  trim : Option String
deriving Repr, DecidableEq

/-- Outcomes of the environment: connectivity, decode responses, and an
error flag per fallible remote call of `saveJobToSupabase`. -/
structure Env where
  online : Bool
  decode : String → Option DecodeResult
  vehSelectFails : Bool
  vehInsertFails : Bool
  vehRetrySelectFails : Bool
  decodeUpdateFails : Bool
  refreshSelectFails : Bool
  linkWriteFails : Bool
  custSelectFails : Bool
  custUpdateFails : Bool
  custInsertFails : Bool
  jobInsertFails : Bool
  jobServicesInsertFails : Bool
  legacySelectFails : Bool
  legacyUpdateFails : Bool
  legacyInsertFails : Bool

/-- The remote relational store. -/
structure Store where
  vehicles : List Vehicle
  customers : List Customer
  jobs : List Job
  job_services : List JobService
  legacy : List LegacyRecord
  nextId : ℕ
deriving Repr, DecidableEq

/-- Errors surfaced by a failed reconciliation. -/
inductive SaveErr where
  | invalidVin : SaveErr
  | dbError : String → SaveErr
deriving Repr, DecidableEq

instance {ε α : Type} [DecidableEq ε] [DecidableEq α] : DecidableEq (Except ε α) :=
  fun a b =>
  match a, b with
  | .ok x, .ok y =>
    if h : x = y then .isTrue (by rw [h]) else .isFalse (by intro hh; cases hh; exact h rfl)
  | .error x, .error y =>
    if h : x = y then .isTrue (by rw [h]) else .isFalse (by intro hh; cases hh; exact h rfl)
  | .ok _, .error _ => .isFalse (by intro hh; cases hh)
  | .error _, .ok _ => .isFalse (by intro hh; cases hh)

/-- `.eq("id", i)` point update on `vehicles`. -/
def updateVehicleById (vs : List Vehicle) (i : ℕ) (f : Vehicle → Vehicle) : List Vehicle :=
  vs.map fun x => if x.id == i then f x else x

/-- `.eq("id", i)` point update on `customers`. -/
def updateCustomerById (cs : List Customer) (i : ℕ) (f : Customer → Customer) :
    List Customer :=
  cs.map fun x => if x.id == i then f x else x

/-- `.eq("id", i)` point update on `customer_data_legacy`. -/
def updateLegacyById (ls : List LegacyRecord) (i : ℕ) (f : LegacyRecord → LegacyRecord) :
    List LegacyRecord :=
  ls.map fun x => if x.id == i then f x else x

/-- The bare Vehicle row created by `.insert({ vin: v })`. -/
def newVehicle (i : ℕ) (v : String) : Vehicle :=
  { id := i, vin := v, year := none, make := none, model := none, trim := none,
    service_history_link := none }

/-- JS truthiness of a nullable number (`!veh.year`). -/
def jsFalsyInt (x : Option ℤ) : Bool := x == none || x == some 0

/-- JS truthiness of a nullable string (`!veh.make`). -/
def jsFalsyStr (x : Option String) : Bool := x == none || x == some ""

/-- `needsDecode` (source lines 263-266) on a non-null vehicle:
`!veh.year || !veh.make || !veh.model`. -/
def needsDecode (veh : Vehicle) : Bool :=
  jsFalsyInt veh.year || jsFalsyStr veh.make || jsFalsyStr veh.model

/-- Trimmed string, or `null` when the trim is empty (the
`(x || "").trim() || null` idiom of the source). -/
def trimOrNone (s : String) : Option String :=
  if jsTrim s = "" then none else some (jsTrim s)

/-! ## Submission Reconciler (source lines 283-354, 394-438, 553-741) -/

/-- Vehicle resolution block of `saveJobToSupabase` (source lines 558-595):
look up by exact VIN; if absent insert a bare row; if the insert errors,
retry the lookup once and fail with the insert error when that also yields
nothing. -/
def resolveVehicle (env : Env) (vs : List Vehicle) (nextId : ℕ) (v : String) :
    List Vehicle × ℕ × Except SaveErr (ℕ × Vehicle) :=
  if env.vehSelectFails then (vs, nextId, .error (.dbError "vehicle select failed"))
  else
    match vs.find? (fun x => x.vin == v) with
    | some veh => (vs, nextId, .ok (veh.id, veh))
    | none =>
      if env.vehInsertFails then
        if env.vehRetrySelectFails then
          (vs, nextId, .error (.dbError "vehicle insert failed"))
        else
          match vs.find? (fun x => x.vin == v) with
          | some veh => (vs, nextId, .ok (veh.id, veh))
          | none => (vs, nextId, .error (.dbError "vehicle insert failed"))
      else
        (vs ++ [newVehicle nextId v], nextId + 1, .ok (nextId, newVehicle nextId v))

/-- `decodeVinAndUpdateVehicle` (source lines 394-438) as a transformer of
the `vehicles` table: offline, fetch failure and update failure are all
swallowed (only a status message is set). -/
def decodeVinAndUpdateVehicle (env : Env) (vs : List Vehicle) (vehicleId : ℕ)
    (v : String) : List Vehicle :=
  if !env.online then vs
  else
    match env.decode v with
    | none => vs
    | some d =>
      if env.decodeUpdateFails then vs
      else updateVehicleById vs vehicleId fun x =>
        { x with year := d.year, make := d.make, model := d.model, trim := d.trim }

/-- Customer resolution block of `saveJobToSupabase` (source lines 620-691):
dedupe by the normalized phone key when non-empty; merge into a found row
(name and phone fall back to the existing value when the typed one is empty,
`phone_norm`, `address` and `zip_code` are written outright) only when some
typed field is non-empty and differs; insert a fresh row otherwise.  The
source does not check the update's error object, so a failed update is
silently skipped. -/
def resolveCustomer (env : Env) (cs : List Customer) (nextId : ℕ) (p : PendingJob) :
    List Customer × ℕ × Except SaveErr ℕ :=
  let phoneNorm := normalizePhone p.customer_phone
  let typedName := jsTrim p.customer_name
  let typedPhone := jsTrim p.customer_phone
  let typedAddress := trimOrNone p.customer_address
  let typedZip := trimOrNone p.customer_zip
  if phoneNorm != "" then
    if env.custSelectFails then (cs, nextId, .error (.dbError "customer select failed"))
    else
      match cs.find? (fun x => x.phone_norm == some phoneNorm) with
      | some c =>
        let shouldUpdate :=
          (typedName != "" && typedName != c.full_name) ||
          (typedPhone != "" && typedPhone != c.phone.getD "") ||
          (typedAddress != none && typedAddress != c.address) ||
          (typedZip != none && typedZip != c.zip_code)
        if shouldUpdate && !env.custUpdateFails then
          (updateCustomerById cs c.id fun x =>
            { x with
              full_name := if typedName = "" then c.full_name else typedName
              phone := if typedPhone = "" then c.phone else some typedPhone
              phone_norm := some phoneNorm
              address := typedAddress
              zip_code := typedZip },
           nextId, .ok c.id)
        else (cs, nextId, .ok c.id)
      | none =>
        if env.custInsertFails then (cs, nextId, .error (.dbError "customer insert failed"))
        else
          (cs ++ [{ id := nextId, full_name := typedName,
                    phone := if typedPhone = "" then none else some typedPhone,
                    phone_norm := some phoneNorm,
                    address := typedAddress, zip_code := typedZip }],
           nextId + 1, .ok nextId)
  else
    if env.custInsertFails then (cs, nextId, .error (.dbError "customer insert failed"))
    else
      (cs ++ [{ id := nextId, full_name := typedName,
                phone := if typedPhone = "" then none else some typedPhone,
                phone_norm := none,
                address := typedAddress, zip_code := typedZip }],
       nextId + 1, .ok nextId)

/-- Job insertion of `saveJobToSupabase` (source lines 693-709). -/
def insertJob (env : Env) (js : List Job) (nextId : ℕ) (customerId vehicleId : ℕ)
    (p : PendingJob) : List Job × ℕ × Except SaveErr ℕ :=
  if env.jobInsertFails then (js, nextId, .error (.dbError "job insert failed"))
  else
    (js ++ [{ id := nextId, customer_id := customerId, vehicle_id := vehicleId,
              status := "completed", performed_at := p.performed_at,
              notes := trimOrNone p.notes,
              total_price_cents := dollarsToCents p.total_charged,
              currency := "USD" }],
     nextId + 1, .ok nextId)

/-- `job_services` insertion (source lines 711-720): one row per
`[selected_package_id, ...addon_ids]`, quantity 1. -/
def insertServiceRows (env : Env) (rows : List JobService) (jid : ℕ) (p : PendingJob) :
    List JobService × Except SaveErr Unit :=
  if env.jobServicesInsertFails then (rows, .error (.dbError "job services insert failed"))
  else
    (rows ++ (p.selected_package_id :: p.addon_ids).map fun sid =>
      { job_id := jid, service_id := sid, quantity := 1,
        final_price_cents := none, price_note := none },
     .ok ())

/-- Parameters of `upsertLegacyByVin` (source lines 283-293). -/
structure LegacyParams where
  vin : String
  customerName : String
  customerPhone : String
  customerAddress : String
  customerZip : String
  vehicle : Option Vehicle
  notes : String
  status : String
  serviceHistoryLink : String

/-- `upsertLegacyByVin` (source lines 283-354): skip invalid VINs, build the
denormalized payload (with the alternate column names), then find-by-VIN and
update-if-found else insert.  `service_history_link` is present in the
payload only when the link is non-empty, so an empty link leaves the stored
column untouched on update. -/
def upsertLegacyByVin (env : Env) (ls : List LegacyRecord) (nextId : ℕ)
    (ps : LegacyParams) : List LegacyRecord × ℕ × Except SaveErr Unit :=
  let v := normalizeVin ps.vin
  if !isValidVin v then (ls, nextId, .ok ())
  else
    let customer_id := phoneToLegacyCustomerId ps.customerPhone
    let typedAddress := trimOrNone ps.customerAddress
    let typedZip := trimOrNone ps.customerZip
    let nameField := trimOrNone ps.customerName
    let phoneField := trimOrNone ps.customerPhone
    let notesField := trimOrNone ps.notes
    let link := normalizeDriveFolderLink ps.serviceHistoryLink
    if env.legacySelectFails then (ls, nextId, .error (.dbError "legacy select failed"))
    else
      match ls.find? (fun x => x.vin == v) with
      | some ex =>
        if env.legacyUpdateFails then (ls, nextId, .error (.dbError "legacy update failed"))
        else
          (updateLegacyById ls ex.id fun x =>
            { x with
              vin := v, customer_id := customer_id, status := ps.status,
              notes := notesField, customer_name := nameField,
              phone_number := phoneField, address := typedAddress,
              zip_code := typedZip, customer_phone := phoneField,
              customer_address := typedAddress, customer_zip := typedZip,
              zip := typedZip, postal_code := typedZip,
              make := ps.vehicle.bind Vehicle.make,
              model := ps.vehicle.bind Vehicle.model,
              year := ps.vehicle.bind Vehicle.year,
              service_history_link :=
                if link = "" then x.service_history_link else some link },
           nextId, .ok ())
      | none =>
        if env.legacyInsertFails then (ls, nextId, .error (.dbError "legacy insert failed"))
        else
          (ls ++ [{ id := nextId, vin := v, customer_id := customer_id,
                    status := ps.status, notes := notesField,
                    customer_name := nameField, phone_number := phoneField,
                    address := typedAddress, zip_code := typedZip,
                    customer_phone := phoneField, customer_address := typedAddress,
                    customer_zip := typedZip, zip := typedZip, postal_code := typedZip,
                    make := ps.vehicle.bind Vehicle.make,
                    model := ps.vehicle.bind Vehicle.model,
                    year := ps.vehicle.bind Vehicle.year,
                    service_history_link := if link = "" then none else some link }],
           nextId + 1, .ok ())

/-- The decode step of `saveJobToSupabase` (source lines 597-609) applied to
the vehicles table: run only when online and the resolved vehicle is missing
identity fields. -/
def vehiclesAfterDecode (env : Env) (vehs1 : List Vehicle) (vehicleId : ℕ)
    (veh0 : Vehicle) (v : String) : List Vehicle :=
  if env.online && needsDecode veh0 then decodeVinAndUpdateVehicle env vehs1 vehicleId v
  else vehs1

/-- The re-read of the vehicle row after the decode step (source lines
600-608): on a failed or empty re-read the previously held row is kept. -/
def refreshedVehicle (env : Env) (vehs2 : List Vehicle) (vehicleId : ℕ)
    (veh0 : Vehicle) : Vehicle :=
  if env.refreshSelectFails then veh0
  else
    match vehs2.find? (fun x => x.id == vehicleId) with
    | some r => r
    | none => veh0

/-- The service-history-link write (source lines 611-618): best effort,
skipped when the link is empty, failure swallowed. -/
def vehiclesAfterLink (env : Env) (vehs2 : List Vehicle) (vehicleId : ℕ)
    (link : String) : List Vehicle :=
  if link != "" && !env.linkWriteFails then
    updateVehicleById vehs2 vehicleId fun x =>
      { x with service_history_link := some link }
  else vehs2

/-- `saveJobToSupabase` (source lines 553-741): validate the VIN, resolve or
create the Vehicle, best-effort decode and service-history-link write,
resolve/merge/create the Customer, insert the Job and its service rows, then
upsert the legacy mirror inside a catch-all (its failure never affects the
returned confirmation).  Returns the store reflecting all writes up to the
failure point together with the outcome. -/
def saveJobToSupabase (env : Env) (st : Store) (p : PendingJob) :
    Store × Except SaveErr ℕ :=
  let v := normalizeVin p.vin
  if !isValidVin v then (st, .error .invalidVin)
  else
    match resolveVehicle env st.vehicles st.nextId v with
    | (vehs1, n1, .error e) => ({ st with vehicles := vehs1, nextId := n1 }, .error e)
    | (vehs1, n1, .ok (vehicleId, veh0)) =>
      let vehs2 := vehiclesAfterDecode env vehs1 vehicleId veh0 v
      let vehicleForDecode :=
        if env.online && needsDecode veh0 then refreshedVehicle env vehs2 vehicleId veh0
        else veh0
      let link := normalizeDriveFolderLink p.service_history_link
      let vehs3 := vehiclesAfterLink env vehs2 vehicleId link
      match resolveCustomer env st.customers n1 p with
      | (custs1, n2, .error e) =>
        ({ st with vehicles := vehs3, customers := custs1, nextId := n2 }, .error e)
      | (custs1, n2, .ok customerId) =>
        match insertJob env st.jobs n2 customerId vehicleId p with
        | (jobs1, n3, .error e) =>
          ({ st with
              vehicles := vehs3, customers := custs1, jobs := jobs1,
              nextId := n3 }, .error e)
        | (jobs1, n3, .ok jid) =>
          match insertServiceRows env st.job_services jid p with
          | (rows1, .error e) =>
            ({ st with
                vehicles := vehs3, customers := custs1, jobs := jobs1,
                job_services := rows1, nextId := n3 }, .error e)
          | (rows1, .ok _) =>
            let lg := upsertLegacyByVin env st.legacy n3
              { vin := v, customerName := p.customer_name,
                customerPhone := p.customer_phone,
                customerAddress := p.customer_address, customerZip := p.customer_zip,
                vehicle := some vehicleForDecode, notes := p.notes,
                status := "active", serviceHistoryLink := link }
            ({ st with
                vehicles := vehs3, customers := custs1, jobs := jobs1,
                job_services := rows1, legacy := lg.1, nextId := lg.2.1 }, .ok jid)

/-! ## Sync Scheduler (source lines 743-771) -/

/-- The drain loop body of `flushQueue`: process `ordered` (oldest first);
for each entry bump its attempt count, reconcile, remove on success, and on
failure stop immediately, leaving the current and all later entries queued. -/
def drainFrom (env : Env) : Store → List PendingJob → List PendingJob →
    Store × List PendingJob
  | st, q, [] => (st, q)
  | st, q, item :: rest =>
    let q1 := bumpAttempt q item.id
    match saveJobToSupabase env st item with
    | (st', .ok _) => drainFrom env st' (removeFromQueue q1 item.id) rest
    | (st', .error _) => (st', q1)

/-- `flushQueue` (source lines 743-771): no-op when offline or the queue is
empty; otherwise drain the snapshot reversed (oldest first).  The
`syncingQueue` reentrancy guard is irrelevant in this sequential model. -/
def flushQueue (env : Env) (st : Store) (q : List PendingJob) :
    Store × List PendingJob :=
  if !env.online then (st, q)
  else if q.isEmpty then (st, q)
  else drainFrom env st q q.reverse

/-! ## Concrete fixtures for witnesses and counterexamples -/

/-- Environment where every remote call succeeds, the device is online, and
the VIN decoder has no data. -/
def envAllOk : Env :=
  { online := true, decode := fun _ => none,
    vehSelectFails := false, vehInsertFails := false, vehRetrySelectFails := false,
    decodeUpdateFails := false, refreshSelectFails := false, linkWriteFails := false,
    custSelectFails := false, custUpdateFails := false, custInsertFails := false,
    jobInsertFails := false, jobServicesInsertFails := false,
    legacySelectFails := false, legacyUpdateFails := false, legacyInsertFails := false }

def emptyStore : Store :=
  { vehicles := [], customers := [], jobs := [], job_services := [], legacy := [],
    nextId := 0 }

/-- A well-formed queued submission. -/
def goodJob : PendingJob :=
  { id := "job-1", created_at := "t1", attempt_count := 0,
    vin := "1HGCM82633A004352", customer_name := "Alice",
    customer_phone := "9195550100", customer_address := "", customer_zip := "",
    service_history_link := "", service_type := "full",
    selected_package_id := "pkg-basic", addon_ids := [], total_charged := "",
    notes := "", performed_at := "2026-01-01T00:00:00Z" }

/-- A queued submission whose VIN fails validation. -/
def badVinJob : PendingJob := { goodJob with id := "job-2", vin := "SHORT" }

/-- A third, distinct well-formed submission. -/
def thirdJob : PendingJob := { goodJob with id := "job-3" }

/-- Witness for C10 at a concrete queue and absent id. -/
theorem bumpAttempt_frame_instance :
    bumpAttempt [goodJob, badVinJob] "no-such-id" = [goodJob, badVinJob] :=
  bumpAttempt_frame.2.2 [goodJob, badVinJob] "no-such-id" (by decide)

/-! ## Claims C2 and C3: drain behaviour -/

/-- Counterexample to claim C2: an invalid-VIN entry is *not* dropped after
its validation failure — the next drain retries it (its attempt count climbs
from 1 to 2), contradicting "the Sync Scheduler never retries that entry on
subsequent drains". -/
theorem invalidVin_retried_on_next_drain :
    (flushQueue envAllOk emptyStore [badVinJob]).2
      = [{ badVinJob with attempt_count := 1 }] ∧
    (flushQueue envAllOk emptyStore [{ badVinJob with attempt_count := 1 }]).2
      = [{ badVinJob with attempt_count := 2 }] := by
  decide

/-- Amended claim C2: a queued entry with an invalid VIN makes the reconciler
fail fast with a validation error and no store write; a drain that reaches it
bumps its attempt count, stops, and leaves it queued — so every later drain
retries it. -/
theorem invalidVin_failsFast_and_staysQueued (env : Env) (st : Store) (e : PendingJob)
    (hvin : isValidVin (normalizeVin e.vin) = false) (honline : env.online = true) :
    saveJobToSupabase env st e = (st, .error .invalidVin) ∧
    flushQueue env st [e] = (st, [{ e with attempt_count := e.attempt_count + 1 }]) := by
  have h1 : saveJobToSupabase env st e = (st, .error .invalidVin) := by
    simp [saveJobToSupabase, hvin]
  refine ⟨h1, ?_⟩
  unfold flushQueue
  rw [honline]
  simp [drainFrom, h1, bumpAttempt]

/-- Witness for the amended C2 at a concrete queue entry. -/
theorem invalidVin_failsFast_instance :
    saveJobToSupabase envAllOk emptyStore badVinJob = (emptyStore, .error .invalidVin) ∧
    flushQueue envAllOk emptyStore [badVinJob] =
      (emptyStore, [{ badVinJob with attempt_count := badVinJob.attempt_count + 1 }]) :=
  invalidVin_failsFast_and_staysQueued envAllOk emptyStore badVinJob (by decide) rfl

/-- Claim C3: draining a three-entry queue (stored newest-first, processed
oldest-first) whose second entry fails: entry 1 is reconciled and removed,
entry 2 keeps its place with attempt count bumped by exactly one, entry 3 is
untouched, and the loop stops at the failure. -/
theorem flushQueue_stopsAtFirstFailure (env : Env) (st : Store)
    (e1 e2 e3 : PendingJob)
    (h31 : e3.id ≠ e1.id) (h21 : e2.id ≠ e1.id) (h32 : e3.id ≠ e2.id)
    (honline : env.online = true)
    (st1 : Store) (j1 : ℕ) (hs1 : saveJobToSupabase env st e1 = (st1, .ok j1))
    (st2 : Store) (err : SaveErr)
    (hs2 : saveJobToSupabase env st1 e2 = (st2, .error err)) :
    flushQueue env st [e3, e2, e1] =
      (st2, [e3, { e2 with attempt_count := e2.attempt_count + 1 }]) := by
  unfold flushQueue
  rw [honline]
  simp [drainFrom, hs1, hs2, bumpAttempt, removeFromQueue, beq_iff_eq, bne_iff_ne,
    h31, h21, h32]

/-- Witness for C3: concrete three-entry drain where the middle (second
oldest) entry has an invalid VIN. -/
theorem flushQueue_stopsAtFirstFailure_instance :
    flushQueue envAllOk emptyStore [thirdJob, badVinJob, goodJob] =
      ((saveJobToSupabase envAllOk emptyStore goodJob).1,
       [thirdJob, { badVinJob with attempt_count := badVinJob.attempt_count + 1 }]) :=
  flushQueue_stopsAtFirstFailure envAllOk emptyStore goodJob badVinJob thirdJob
    (by decide) (by decide) (by decide) rfl
    (saveJobToSupabase envAllOk emptyStore goodJob).1 2 (by decide)
    (saveJobToSupabase envAllOk emptyStore goodJob).1 .invalidVin (by decide)

/-! ## Claim C6: a legacy-mirror failure never affects the outcome -/

/-- The same environment with the three legacy-mirror calls forced to
succeed. -/
def envWithLegacyOk (env : Env) : Env :=
  { env with legacySelectFails := false, legacyUpdateFails := false,
             legacyInsertFails := false }

theorem resolveVehicle_legacyOk (env : Env) (vs : List Vehicle) (n : ℕ) (v : String) :
    resolveVehicle (envWithLegacyOk env) vs n v = resolveVehicle env vs n v := rfl

theorem vehiclesAfterDecode_legacyOk (env : Env) (vs : List Vehicle) (i : ℕ)
    (veh0 : Vehicle) (v : String) :
    vehiclesAfterDecode (envWithLegacyOk env) vs i veh0 v =
      vehiclesAfterDecode env vs i veh0 v := rfl

theorem refreshedVehicle_legacyOk (env : Env) (vs : List Vehicle) (i : ℕ)
    (veh0 : Vehicle) :
    refreshedVehicle (envWithLegacyOk env) vs i veh0 = refreshedVehicle env vs i veh0 := rfl

theorem vehiclesAfterLink_legacyOk (env : Env) (vs : List Vehicle) (i : ℕ)
    (link : String) :
    vehiclesAfterLink (envWithLegacyOk env) vs i link = vehiclesAfterLink env vs i link :=
  rfl

theorem resolveCustomer_legacyOk (env : Env) (cs : List Customer) (n : ℕ)
    (p : PendingJob) :
    resolveCustomer (envWithLegacyOk env) cs n p = resolveCustomer env cs n p := rfl

theorem insertJob_legacyOk (env : Env) (js : List Job) (n cid vid : ℕ) (p : PendingJob) :
    insertJob (envWithLegacyOk env) js n cid vid p = insertJob env js n cid vid p := rfl

theorem insertServiceRows_legacyOk (env : Env) (rows : List JobService) (jid : ℕ)
    (p : PendingJob) :
    insertServiceRows (envWithLegacyOk env) rows jid p =
      insertServiceRows env rows jid p := rfl

theorem envWithLegacyOk_online (env : Env) :
    (envWithLegacyOk env).online = env.online := rfl

/-- Claim C6: the outcome of a reconciliation (error or confirmed Job id) is
the same whether or not the legacy-mirror find/update/insert calls fail: the
legacy step runs inside a catch-all and whenever steps 1-5 succeed the Job id
is returned regardless of the mirror's fate. -/
theorem saveJob_legacy_failure_nonfatal (env : Env) (st : Store) (p : PendingJob) :
    (saveJobToSupabase env st p).2 = (saveJobToSupabase (envWithLegacyOk env) st p).2 := by
  unfold saveJobToSupabase
  simp only [resolveVehicle_legacyOk, vehiclesAfterDecode_legacyOk,
    refreshedVehicle_legacyOk, vehiclesAfterLink_legacyOk, resolveCustomer_legacyOk,
    insertJob_legacyOk, insertServiceRows_legacyOk, envWithLegacyOk_online]
  repeat' split
  all_goals rfl

/-! ## Claim C5: at most one Vehicle per VIN -/

/-- Number of `vehicles` rows carrying a given VIN. -/
def countVin (vs : List Vehicle) (v : String) : ℕ :=
  (vs.filter fun x => x.vin == v).length

theorem countVin_updateById (vs : List Vehicle) (i : ℕ) (f : Vehicle → Vehicle)
    (hf : ∀ x, (f x).vin = x.vin) (w : String) :
    countVin (updateVehicleById vs i f) w = countVin vs w := by
  unfold countVin updateVehicleById
  rw [List.filter_map, List.length_map]
  congr 1
  apply List.filter_congr
  intro x _
  simp only [Function.comp_apply]
  split
  · rw [hf x]
  · rfl

theorem length_updateVehicleById (vs : List Vehicle) (i : ℕ) (f : Vehicle → Vehicle) :
    (updateVehicleById vs i f).length = vs.length := by
  simp [updateVehicleById]

theorem countVin_decodeVin (env : Env) (vs : List Vehicle) (i : ℕ) (v w : String) :
    countVin (decodeVinAndUpdateVehicle env vs i v) w = countVin vs w := by
  unfold decodeVinAndUpdateVehicle
  repeat' split
  any_goals rfl
  apply countVin_updateById
  intro x
  rfl

theorem length_decodeVin (env : Env) (vs : List Vehicle) (i : ℕ) (v : String) :
    (decodeVinAndUpdateVehicle env vs i v).length = vs.length := by
  unfold decodeVinAndUpdateVehicle
  repeat' split
  any_goals rfl
  exact length_updateVehicleById _ _ _

theorem countVin_vehiclesAfterDecode (env : Env) (vs : List Vehicle) (i : ℕ)
    (veh0 : Vehicle) (v w : String) :
    countVin (vehiclesAfterDecode env vs i veh0 v) w = countVin vs w := by
  unfold vehiclesAfterDecode
  split
  · exact countVin_decodeVin env vs i v w
  · rfl

theorem length_vehiclesAfterDecode (env : Env) (vs : List Vehicle) (i : ℕ)
    (veh0 : Vehicle) (v : String) :
    (vehiclesAfterDecode env vs i veh0 v).length = vs.length := by
  unfold vehiclesAfterDecode
  split
  · exact length_decodeVin env vs i v
  · rfl

theorem countVin_vehiclesAfterLink (env : Env) (vs : List Vehicle) (i : ℕ)
    (link w : String) :
    countVin (vehiclesAfterLink env vs i link) w = countVin vs w := by
  unfold vehiclesAfterLink
  split
  · apply countVin_updateById
    intro x
    rfl
  · rfl

theorem length_vehiclesAfterLink (env : Env) (vs : List Vehicle) (i : ℕ)
    (link : String) :
    (vehiclesAfterLink env vs i link).length = vs.length := by
  unfold vehiclesAfterLink
  split
  · exact length_updateVehicleById _ _ _
  · rfl

theorem countVin_pos_of_find {vs : List Vehicle} {v : String} {veh : Vehicle}
    (h : vs.find? (fun x => x.vin == v) = some veh) : countVin vs v ≠ 0 := by
  intro hc
  have hmem := List.mem_of_find?_eq_some h
  have hp := List.find?_some h
  have hin : veh ∈ vs.filter (fun x => x.vin == v) := List.mem_filter.mpr ⟨hmem, hp⟩
  rw [countVin, List.length_eq_zero] at hc
  rw [hc] at hin
  exact absurd hin (List.not_mem_nil veh)

theorem countVin_zero_of_find_none {vs : List Vehicle} {v : String}
    (h : vs.find? (fun x => x.vin == v) = none) : countVin vs v = 0 := by
  rw [countVin, List.length_eq_zero, List.filter_eq_nil_iff]
  exact fun x hx => List.find?_eq_none.mp h x hx

theorem countVin_append_new (vs : List Vehicle) (n : ℕ) (v : String) :
    countVin (vs ++ [newVehicle n v]) v = countVin vs v + 1 := by
  unfold countVin
  rw [List.filter_append]
  simp [newVehicle]

/-- Vehicle resolution with working select and insert always succeeds;
it adds a row exactly when the VIN was absent. -/
theorem resolveVehicle_spec (env : Env) (vs : List Vehicle) (n : ℕ) (v : String)
    (h1 : env.vehSelectFails = false) (h2 : env.vehInsertFails = false) :
    ∃ vehs1 n1 vid veh0,
      resolveVehicle env vs n v = (vehs1, n1, .ok (vid, veh0)) ∧
      countVin vehs1 v = (if countVin vs v = 0 then 1 else countVin vs v) ∧
      vehs1.length = vs.length + (if countVin vs v = 0 then 1 else 0) := by
  cases hfind : vs.find? (fun x => x.vin == v) with
  | some veh =>
    have hpos := countVin_pos_of_find hfind
    exact ⟨vs, n, veh.id, veh, by simp [resolveVehicle, h1, hfind],
      by rw [if_neg hpos], by rw [if_neg hpos, Nat.add_zero]⟩
  | none =>
    have h0 := countVin_zero_of_find_none hfind
    refine ⟨vs ++ [newVehicle n v], n + 1, n, newVehicle n v,
      by simp [resolveVehicle, h1, h2, hfind], ?_, ?_⟩
    · rw [countVin_append_new, h0, if_pos rfl]
    · simp [h0]

/-- Customer resolution with working select and insert always succeeds. -/
theorem resolveCustomer_ok (env : Env) (cs : List Customer) (n : ℕ) (p : PendingJob)
    (h3 : env.custSelectFails = false) (h4 : env.custInsertFails = false) :
    ∃ cs' n' cid, resolveCustomer env cs n p = (cs', n', .ok cid) := by
  unfold resolveCustomer
  simp only [h3, h4, Bool.false_eq_true, if_false]
  repeat' split
  all_goals exact ⟨_, _, _, rfl⟩

/-- When all fatal remote calls succeed and the VIN is valid, a
reconciliation confirms with a Job id, leaves exactly one row for the given
VIN (creating it only when it was absent), and otherwise never grows the
vehicles table. -/
theorem saveJob_mainProps (env : Env) (st : Store) (p : PendingJob)
    (h1 : env.vehSelectFails = false) (h2 : env.vehInsertFails = false)
    (h3 : env.custSelectFails = false) (h4 : env.custInsertFails = false)
    (h5 : env.jobInsertFails = false) (h6 : env.jobServicesInsertFails = false)
    (hv : isValidVin (normalizeVin p.vin) = true) :
    (∃ j, (saveJobToSupabase env st p).2 = .ok j) ∧
    countVin (saveJobToSupabase env st p).1.vehicles (normalizeVin p.vin) =
      (if countVin st.vehicles (normalizeVin p.vin) = 0 then 1
       else countVin st.vehicles (normalizeVin p.vin)) ∧
    (saveJobToSupabase env st p).1.vehicles.length =
      st.vehicles.length +
        (if countVin st.vehicles (normalizeVin p.vin) = 0 then 1 else 0) := by
  obtain ⟨vehs1, n1, vid, veh0, hR, hc1, hl1⟩ :=
    resolveVehicle_spec env st.vehicles st.nextId (normalizeVin p.vin) h1 h2
  obtain ⟨cs1, n2, cid, hC⟩ := resolveCustomer_ok env st.customers n1 p h3 h4
  have hsplit :
      (saveJobToSupabase env st p).1.vehicles =
        vehiclesAfterLink env
          (vehiclesAfterDecode env vehs1 vid veh0 (normalizeVin p.vin)) vid
          (normalizeDriveFolderLink p.service_history_link) ∧
      (saveJobToSupabase env st p).2 = .ok n2 := by
    simp only [saveJobToSupabase, hv, Bool.not_true, Bool.false_eq_true, if_false,
      hR, hC, insertJob, h5, insertServiceRows, h6]
    constructor <;> first | rfl | trivial
  refine ⟨⟨n2, hsplit.2⟩, ?_, ?_⟩
  · rw [hsplit.1, countVin_vehiclesAfterLink, countVin_vehiclesAfterDecode, hc1]
  · rw [hsplit.1, length_vehiclesAfterLink, length_vehiclesAfterDecode, hl1]

/-- Claim C5: reconciling two payloads with the same (valid) normalized VIN
against a store with no Vehicle for that VIN yields exactly one Vehicle row
for it after each step, and the second reconciliation adds no vehicle row at
all. -/
theorem vehicle_unique_per_vin_two_reconciles (env : Env) (st : Store)
    (p1 p2 : PendingJob)
    (h1 : env.vehSelectFails = false) (h2 : env.vehInsertFails = false)
    (h3 : env.custSelectFails = false) (h4 : env.custInsertFails = false)
    (h5 : env.jobInsertFails = false) (h6 : env.jobServicesInsertFails = false)
    (hvin : normalizeVin p2.vin = normalizeVin p1.vin)
    (hv : isValidVin (normalizeVin p1.vin) = true)
    (h0 : countVin st.vehicles (normalizeVin p1.vin) = 0) :
    countVin (saveJobToSupabase env st p1).1.vehicles (normalizeVin p1.vin) = 1 ∧
    countVin (saveJobToSupabase env (saveJobToSupabase env st p1).1 p2).1.vehicles
      (normalizeVin p1.vin) = 1 ∧
    (saveJobToSupabase env (saveJobToSupabase env st p1).1 p2).1.vehicles.length =
      (saveJobToSupabase env st p1).1.vehicles.length := by
  obtain ⟨-, hc1, -⟩ := saveJob_mainProps env st p1 h1 h2 h3 h4 h5 h6 hv
  rw [h0, if_pos rfl] at hc1
  obtain ⟨-, hc2, hl2⟩ :=
    saveJob_mainProps env (saveJobToSupabase env st p1).1 p2 h1 h2 h3 h4 h5 h6
      (by rw [hvin]; exact hv)
  rw [hvin, hc1] at hc2 hl2
  rw [if_neg (by decide)] at hc2
  rw [if_neg (by decide), Nat.add_zero] at hl2
  exact ⟨hc1, hc2, hl2⟩

/-- A second submission for the same VIN from a different customer. -/
def goodJob2 : PendingJob :=
  { goodJob with id := "job-4", customer_name := "Bob", customer_phone := "" }

/-- Witness for C5: two concrete reconciliations of the same VIN against the
empty store. -/
theorem vehicle_unique_per_vin_instance :
    countVin (saveJobToSupabase envAllOk emptyStore goodJob).1.vehicles
      (normalizeVin goodJob.vin) = 1 ∧
    countVin (saveJobToSupabase envAllOk
        (saveJobToSupabase envAllOk emptyStore goodJob).1 goodJob2).1.vehicles
      (normalizeVin goodJob.vin) = 1 ∧
    (saveJobToSupabase envAllOk
        (saveJobToSupabase envAllOk emptyStore goodJob).1 goodJob2).1.vehicles.length =
      (saveJobToSupabase envAllOk emptyStore goodJob).1.vehicles.length :=
  vehicle_unique_per_vin_two_reconciles envAllOk emptyStore goodJob goodJob2
    rfl rfl rfl rfl rfl rfl (by decide) (by decide) (by decide)

/-! ## Claim C1: the customer merge -/

/-- An existing customer with a populated address, deduped by phone. -/
def alice : Customer :=
  { id := 1, full_name := "Alice", phone := some "9195550100",
    phone_norm := some "9195550100", address := some "123 Main St",
    zip_code := some "27604" }

def aliceStore : Store :=
  { vehicles := [], customers := [alice], jobs := [], job_services := [], legacy := [],
    nextId := 10 }

/-- A later submission with the same phone key, a different name, and an
empty address and zip. -/
def bobPayload : PendingJob :=
  { goodJob with id := "live", customer_name := "Bob" }

/-- Counterexample to claim C1: reconciling a payload whose phone key matches
`alice` but whose submitted address is empty blanks the stored address (the
differing name makes `shouldUpdate` fire, and the update writes
`address: typedAddress` unconditionally) — refuting "an already-populated
address is never overwritten with an empty submitted address".  No second
customer row is created, and the reconciliation itself succeeds. -/
theorem mergeBlanksPopulatedAddress :
    aliceStore.customers.map Customer.address = [some "123 Main St"] ∧
    normalizePhone bobPayload.customer_phone = "9195550100" ∧
    jsTrim bobPayload.customer_address = "" ∧
    (saveJobToSupabase envAllOk aliceStore bobPayload).2 = .ok 11 ∧
    (saveJobToSupabase envAllOk aliceStore bobPayload).1.customers.map Customer.address
      = [none] ∧
    (saveJobToSupabase envAllOk aliceStore bobPayload).1.customers.length = 1 := by
  decide

/-- Amended claim C1: when the normalized phone key matches an existing
Customer `c`, reconciliation resolves `c` (no second row, same list length).
If every typed field is empty or equal to the stored one, the row is left
untouched; otherwise the row is rewritten with: name and phone kept when the
payload's are empty and overwritten when non-empty, but `address` and
`zip_code` set to the payload's trimmed values outright — `null` when the
submitted value is empty, so a populated address is blanked whenever another
field (e.g. the name) triggers the update. -/
theorem resolveCustomer_merge_semantics (env : Env) (cs : List Customer) (n : ℕ)
    (p : PendingJob) (c : Customer)
    (hsel : env.custSelectFails = false) (hupd : env.custUpdateFails = false)
    (hpn : normalizePhone p.customer_phone ≠ "")
    (hfind : cs.find? (fun x => x.phone_norm == some (normalizePhone p.customer_phone))
      = some c) :
    resolveCustomer env cs n p =
      (if (jsTrim p.customer_name != "" && jsTrim p.customer_name != c.full_name) ||
          (jsTrim p.customer_phone != "" &&
            jsTrim p.customer_phone != c.phone.getD "") ||
          (trimOrNone p.customer_address != none &&
            trimOrNone p.customer_address != c.address) ||
          (trimOrNone p.customer_zip != none && trimOrNone p.customer_zip != c.zip_code)
       then
        updateCustomerById cs c.id fun x =>
          { x with
            full_name := if jsTrim p.customer_name = "" then c.full_name
                         else jsTrim p.customer_name
            phone := if jsTrim p.customer_phone = "" then c.phone
                     else some (jsTrim p.customer_phone)
            phone_norm := some (normalizePhone p.customer_phone)
            address := trimOrNone p.customer_address
            zip_code := trimOrNone p.customer_zip }
       else cs,
       n, .ok c.id) ∧
    (resolveCustomer env cs n p).1.length = cs.length := by
  have hbne : (normalizePhone p.customer_phone != "") = true := by
    simpa using hpn
  constructor
  · simp only [resolveCustomer, hbne, hsel, hupd, hfind]
    simp only [Bool.false_eq_true, if_false, if_true, Bool.not_false, Bool.and_true]
    split <;> rfl
  · unfold resolveCustomer
    simp only [hbne, hsel, hupd, hfind, Bool.false_eq_true, if_false, if_true,
      Bool.not_false, Bool.and_true]
    split
    · simp [updateCustomerById]
    · rfl

/-- Witness for the amended C1 at the concrete matching store. -/
theorem resolveCustomer_merge_semantics_instance :
    resolveCustomer envAllOk aliceStore.customers 10 bobPayload =
      (updateCustomerById aliceStore.customers alice.id fun x =>
        { x with
          full_name := "Bob", phone := some "9195550100",
          phone_norm := some "9195550100", address := none, zip_code := none },
       10, .ok alice.id) ∧
    (resolveCustomer envAllOk aliceStore.customers 10 bobPayload).1.length =
      aliceStore.customers.length := by
  have h := resolveCustomer_merge_semantics envAllOk aliceStore.customers 10
    bobPayload alice rfl rfl (by decide) (by decide)
  refine ⟨h.1.trans ?_, h.2⟩
  decide

end PurpleField
